import Mathlib

/-!
Verification development for `src/c/load-bpf.c`: a minimal harness that loads
a BPF program, registers a kprobe through the kernel control file, resolves
the probe's event id, opens a perf sampling event bound to the program, waits
for SIGINT and releases the descriptors.

The C code is shallowly embedded: every kernel interaction is driven by a
`World` record holding the outcome the kernel would return for each syscall
of the single run, and each C function becomes a Lean function producing its
return value together with the ordered trace of externally visible events
(descriptor creations and closes, ioctl calls, control-file writes, stderr
lines).  Pure fragments (snprintf formatting, strtol parsing, the bpf_attr
construction) are embedded as pure functions.
-/

/-- LOG_BUF_SIZE from load-bpf.c line 15. -/
def LOG_BUF_SIZE : Nat := 65536

/-- PATH_MAX from <limits.h>, the size of the `buf` array in attachTracingEvent. -/
def PATH_MAX : Nat := 4096

/-- SIGINT from <signal.h>. -/
def SIGINT : Int := 2

/-- ENOENT from <errno.h>. -/
def ENOENT : Nat := 2

/-- PERF_TYPE_TRACEPOINT from <linux/perf_event.h>. -/
def PERF_TYPE_TRACEPOINT : Nat := 2

/-- PERF_FLAG_FD_CLOEXEC from <linux/perf_event.h> (1 << 3). -/
def PERF_FLAG_FD_CLOEXEC : Nat := 8

/-- BPF_PROG_TYPE_KPROBE from <linux/bpf.h> (enum bpf_prog_type, third member). -/
def BPF_PROG_TYPE_KPROBE : Nat := 2

/-- LONG_MAX for the 64-bit `long` returned by strtol. -/
def LONG_MAX : Int := 2 ^ 63 - 1

/-- LONG_MIN for the 64-bit `long` returned by strtol. -/
def LONG_MIN : Int := -(2 ^ 63)

/-! ## Model of `strtol(buf, NULL, 0)` (C library, flexible base) -/

/-- C `isspace` on the default locale. -/
def isSpace (c : Char) : Bool :=
  c = ' ' || c = '\t' || c = '\n' || c = '\x0b' || c = '\x0c' || c = '\r'

/-- Value of a hexadecimal digit character, `none` for non-digits. -/
def hexVal (c : Char) : Option Nat :=
  if '0' ≤ c ∧ c ≤ '9' then some (c.toNat - 48)
  else if 'a' ≤ c ∧ c ≤ 'f' then some (c.toNat - 87)
  else if 'A' ≤ c ∧ c ≤ 'F' then some (c.toNat - 55)
  else none

/-- Digit value restricted to a base (bases used here: 8, 10, 16). -/
def digitInBase (base : Nat) (c : Char) : Option Nat :=
  match hexVal c with
  | some v => if v < base then some v else none
  | none => none

/-- Accumulating digit scan of strtol: consumes the longest digit run,
stops at the first non-digit, yields the accumulated magnitude. -/
def parseDigitsAcc (base : Nat) : Nat → List Char → Nat
  | acc, [] => acc
  | acc, c :: rest =>
    match digitInBase base c with
    | some v => parseDigitsAcc base (base * acc + v) rest
    | none => acc

/-- Optional sign consumed by strtol after leading whitespace. -/
def splitSign (s : List Char) : Bool × List Char :=
  match s with
  | [] => (false, [])
  | c :: r => if c = '-' then (true, r) else if c = '+' then (false, r) else (false, c :: r)

/-- Is the first character a hexadecimal digit? -/
def hexHead : List Char → Bool
  | [] => false
  | c :: _ => (hexVal c).isSome

/-- Base detection of strtol with base argument 0: a `0x`/`0X` prefix followed
by a hex digit selects base 16, a bare leading `0` selects base 8, anything
else is decimal. -/
def detectBase (s : List Char) : Nat × List Char :=
  match s with
  | [] => (10, [])
  | c :: r =>
    if c = '0' then
      match r with
      | [] => (8, [])
      | c2 :: r2 =>
        if (c2 = 'x' ∨ c2 = 'X') ∧ hexHead r2 = true then (16, r2)
        else (8, c2 :: r2)
    else (10, c :: r)

/-- Range clamping of strtol on a 64-bit `long` (ERANGE cases). -/
def clampLong (neg : Bool) (v : Nat) : Int :=
  if neg then (if (v : Int) ≤ 2 ^ 63 then -(v : Int) else LONG_MIN)
  else (if (v : Int) ≤ LONG_MAX then (v : Int) else LONG_MAX)

/-- `strtol(s, NULL, 0)`: skip whitespace, optional sign, flexible-base
detection, longest digit run, clamped to `long` range.  An input with no
digits yields 0 (the C call reports that case only through `endptr`,
which load-bpf.c passes as NULL). -/
def strtol0 (s : List Char) : Int :=
  let s1 := s.dropWhile isSpace
  let sg := splitSign s1
  let bb := detectBase sg.2
  clampLong sg.1 (parseDigitsAcc bb.1 0 bb.2)

/-! ## Decimal / hexadecimal rendering (printf `%d`, and reference text for
the id file), connected to `Nat.digits` for the arithmetic lemmas. -/

/-- Little-endian base-`b` digits computed with explicit fuel so that the
kernel can evaluate it on concrete inputs. -/
def digitsFuel (b : Nat) : Nat → Nat → List Nat
  | 0, _ => []
  | fuel + 1, n => if n = 0 then [] else n % b :: digitsFuel b fuel (n / b)

/-- Textual base-`b` rendering of a natural number, most significant digit
first, `"0"` for zero. -/
def baseRepr (b n : Nat) : List Char :=
  if n = 0 then ['0'] else ((digitsFuel b n n).map Nat.digitChar).reverse

/-- Decimal rendering (printf `%d` for non-negative values). -/
def decRepr : Nat → List Char := baseRepr 10

/-- Hexadecimal rendering (the digits that follow a `0x` prefix). -/
def hexRepr : Nat → List Char := baseRepr 16

theorem digitsFuel_eq_digits (b : Nat) (hb : 2 ≤ b) :
    ∀ fuel n, n ≤ fuel → digitsFuel b fuel n = Nat.digits b n := by
  intro fuel
  induction fuel with
  | zero =>
    intro n hn
    have : n = 0 := Nat.le_zero.mp hn
    simp [this, digitsFuel]
  | succ f ih =>
    intro n hn
    by_cases h0 : n = 0
    · simp [h0, digitsFuel]
    · have hb1 : 1 < b := by omega
      have hpos : 0 < n := Nat.pos_of_ne_zero h0
      rw [digitsFuel, if_neg h0, Nat.digits_def' hb1 hpos,
        ih (n / b) (by have := Nat.div_lt_self hpos hb1; omega)]

theorem baseRepr_of_ne_zero (b n : Nat) (hb : 2 ≤ b) (h0 : n ≠ 0) :
    baseRepr b n = ((Nat.digits b n).map Nat.digitChar).reverse := by
  rw [baseRepr, if_neg h0, digitsFuel_eq_digits b hb n n (Nat.le_refl n)]

theorem hexVal_digitChar : ∀ d, d < 16 → hexVal (Nat.digitChar d) = some d := by decide

theorem parseDigitsAcc_map (base : Nat) (hb : base ≤ 16) (l : List Nat)
    (hl : ∀ d ∈ l, d < base) (acc : Nat) :
    parseDigitsAcc base acc (l.map Nat.digitChar) =
      l.foldl (fun a d => base * a + d) acc := by
  induction l generalizing acc with
  | nil => simp [parseDigitsAcc]
  | cons d l ih =>
    have hd : d < base := hl d (List.mem_cons_self d l)
    have h16 : d < 16 := Nat.lt_of_lt_of_le hd hb
    simp only [List.map_cons, parseDigitsAcc, List.foldl_cons, digitInBase,
      hexVal_digitChar d h16, if_pos hd]
    exact ih (fun x hx => hl x (List.mem_cons_of_mem d hx)) (base * acc + d)

theorem foldr_ofDigits (b : Nat) (l : List Nat) :
    l.foldr (fun d a => b * a + d) 0 = Nat.ofDigits b l := by
  induction l with
  | nil => simp [Nat.ofDigits_nil]
  | cons d l ih => simp [List.foldr_cons, ih, Nat.ofDigits_cons]; ring

theorem foldl_reverse_digits (b n : Nat) :
    ((Nat.digits b n).reverse).foldl (fun a d => b * a + d) 0 = n := by
  rw [List.foldl_reverse]
  have : (fun (x : Nat) (y : Nat) => b * y + x) = (fun d a => b * a + d) := rfl
  rw [this, foldr_ofDigits, Nat.ofDigits_digits]

theorem digitChar_not_special : ∀ d, d < 16 → d ≠ 0 →
    isSpace (Nat.digitChar d) = false ∧ Nat.digitChar d ≠ '-' ∧
    Nat.digitChar d ≠ '+' ∧ Nat.digitChar d ≠ '0' := by decide

theorem detectBase_cons_ne (c : Char) (r : List Char) (h : c ≠ '0') :
    detectBase (c :: r) = (10, c :: r) := by
  rw [detectBase.eq_def]; simp [h]

theorem detectBase_hex (c2 : Char) (r2 : List Char) (h : c2 = 'x' ∨ c2 = 'X')
    (hh : hexHead r2 = true) : detectBase ('0' :: c2 :: r2) = (16, r2) := by
  rw [detectBase.eq_def]; simp [h, hh]

theorem splitSign_cons_ne (c : Char) (r : List Char) (h1 : c ≠ '-') (h2 : c ≠ '+') :
    splitSign (c :: r) = (false, c :: r) := by
  rw [splitSign, if_neg h1, if_neg h2]

theorem dropWhile_cons_neg (c : Char) (r : List Char) (h : isSpace c = false) :
    List.dropWhile isSpace (c :: r) = c :: r := by
  rw [List.dropWhile_cons, h]; simp

theorem parse_digits_reverse (b n : Nat) (hb2 : 2 ≤ b) (hb16 : b ≤ 16) :
    parseDigitsAcc b 0 (((Nat.digits b n).reverse).map Nat.digitChar) = n := by
  rw [parseDigitsAcc_map b hb16 _
    (fun x hx => Nat.digits_lt_base (by omega) (List.mem_reverse.mp hx)) 0]
  exact foldl_reverse_digits b n

theorem digits_reverse_head (b n : Nat) (hb2 : 2 ≤ b) (h0 : n ≠ 0) :
    ∃ d ys, (Nat.digits b n).reverse = d :: ys ∧ d < b ∧ d ≠ 0 := by
  have hnil : Nat.digits b n ≠ [] := Nat.digits_ne_nil_iff_ne_zero.mpr h0
  rcases (Nat.digits b n).eq_nil_or_concat with h | ⟨ys, d, hconcat⟩
  · exact absurd h hnil
  · refine ⟨d, ys.reverse, ?_, ?_, ?_⟩
    · rw [hconcat]; simp [List.concat_eq_append]
    · exact Nat.digits_lt_base (by omega)
        (by rw [hconcat, List.concat_eq_append]; simp)
    · have h1 := Nat.getLast_digit_ne_zero b h0
      have h3 : (Nat.digits b n).getLast? = some d := by
        rw [hconcat, List.concat_eq_append]; exact List.getLast?_concat ys
      rw [List.getLast?_eq_getLast _ hnil] at h3
      rw [← Option.some.inj h3]; exact h1

theorem clampLong_of_lt (n : Nat) (h : n < 2 ^ 63) : clampLong false n = (n : Int) := by
  have hle : (n : Int) ≤ LONG_MAX := by
    rw [LONG_MAX]; have : (n : Int) < 2 ^ 63 := by exact_mod_cast h
    omega
  simp [clampLong, hle]

/-- `strtol` with base 0 reads back any decimal rendering: the flexible-base
parse accepts plain decimal text. -/
theorem strtol0_decRepr (n : Nat) (h : n < 2 ^ 63) : strtol0 (decRepr n) = (n : Int) := by
  by_cases h0 : n = 0
  · subst h0; decide
  · obtain ⟨d, ys, hrev, hd10, hd0⟩ := digits_reverse_head 10 n (by norm_num) h0
    have hrepr : decRepr n = (((Nat.digits 10 n).reverse).map Nat.digitChar) := by
      rw [decRepr, baseRepr_of_ne_zero 10 n (by norm_num) h0, List.map_reverse]
    obtain ⟨hsp, hm, hp, hz⟩ := digitChar_not_special d (by omega) hd0
    rw [hrepr, strtol0]
    rw [hrev, List.map_cons, dropWhile_cons_neg _ _ hsp]
    rw [splitSign_cons_ne _ _ hm hp]
    rw [detectBase_cons_ne _ _ hz]
    rw [show Nat.digitChar d :: List.map Nat.digitChar ys =
      List.map Nat.digitChar (d :: ys) from rfl, ← hrev]
    rw [parse_digits_reverse 10 n (by norm_num) (by norm_num)]
    exact clampLong_of_lt n h

/-- `strtol` with base 0 reads back any `0x`-prefixed hexadecimal rendering. -/
theorem strtol0_hexRepr (n : Nat) (h : n < 2 ^ 63) :
    strtol0 ('0' :: 'x' :: hexRepr n) = (n : Int) := by
  by_cases h0 : n = 0
  · subst h0; decide
  · obtain ⟨d, ys, hrev, hd16, hd0⟩ := digits_reverse_head 16 n (by norm_num) h0
    have hrepr : hexRepr n = (((Nat.digits 16 n).reverse).map Nat.digitChar) := by
      rw [hexRepr, baseRepr_of_ne_zero 16 n (by norm_num) h0, List.map_reverse]
    rw [hrepr, hrev, List.map_cons, strtol0]
    rw [dropWhile_cons_neg _ _ (by decide)]
    rw [splitSign_cons_ne _ _ (by decide) (by decide)]
    have hhex : hexHead (Nat.digitChar d :: List.map Nat.digitChar ys) = true := by
      rw [hexHead, hexVal_digitChar d hd16]; rfl
    rw [detectBase_hex _ _ (Or.inl rfl) hhex]
    rw [show Nat.digitChar d :: List.map Nat.digitChar ys =
      List.map Nat.digitChar (d :: ys) from rfl, ← hrev]
    rw [parse_digits_reverse 16 n (by norm_num) (by norm_num)]
    exact clampLong_of_lt n h

/-- Decimal rendering is injective below the `long` range. -/
theorem decRepr_inj (a b : Nat) (ha : a < 2 ^ 63) (hb : b < 2 ^ 63)
    (h : decRepr a = decRepr b) : a = b := by
  have h1 := strtol0_decRepr a ha
  rw [h, strtol0_decRepr b hb] at h1
  exact_mod_cast h1.symm

theorem decRepr_length_le (n k : Nat) (hk : 1 ≤ k) (h : n < 10 ^ k) :
    (decRepr n).length ≤ k := by
  by_cases h0 : n = 0
  · subst h0
    have : (decRepr 0).length = 1 := by decide
    omega
  · rw [decRepr, baseRepr_of_ne_zero 10 n (by norm_num) h0,
      List.length_reverse, List.length_map,
      Nat.digits_len 10 n (by norm_num) h0]
    have := Nat.log_lt_of_lt_pow h0 h
    omega

/-! ## Embedding of load-bpf.c -/

/-- `snprintf` into a buffer of `cap` bytes: at most `cap - 1` characters are
kept (the last byte holds the terminating NUL). -/
def snprintfTake (cap : Nat) (s : List Char) : List Char := s.take (cap - 1)

/-- struct bpf_insn: opcode, two registers, 16-bit offset, 32-bit immediate. -/
structure BpfInsn where
  code : Nat
  dst_reg : Nat
  src_reg : Nat
  off : Int
  imm : Int
deriving DecidableEq

def BPF_REG_0 : Nat := 0
def BPF_REG_1 : Nat := 1
def BPF_REG_2 : Nat := 2
def BPF_REG_10 : Nat := 10

/-- The instruction array `prog` of main (load-bpf.c lines 211-310). -/
def progInsns : List BpfInsn := [
  ⟨0x18, BPF_REG_1, BPF_REG_0, 0, 1914727791⟩,
  ⟨0x00, BPF_REG_0, BPF_REG_0, 0, 175403893⟩,
  ⟨0x7b, BPF_REG_10, BPF_REG_1, -24, 0⟩,
  ⟨0x18, BPF_REG_1, BPF_REG_0, 0, 1819043176⟩,
  ⟨0x00, BPF_REG_0, BPF_REG_0, 0, 1919295599⟩,
  ⟨0x7b, BPF_REG_10, BPF_REG_1, -32, 0⟩,
  ⟨0xb7, BPF_REG_1, BPF_REG_0, 0, 0⟩,
  ⟨0x73, BPF_REG_10, BPF_REG_1, -16, 0⟩,
  ⟨0xbf, BPF_REG_1, BPF_REG_10, 0, 0⟩,
  ⟨0x07, BPF_REG_1, BPF_REG_0, 0, -32⟩,
  ⟨0xb7, BPF_REG_2, BPF_REG_0, 0, 17⟩,
  ⟨0x85, BPF_REG_0, BPF_REG_0, 0, 6⟩,
  ⟨0xb7, BPF_REG_0, BPF_REG_0, 0, 0⟩,
  ⟨0x95, BPF_REG_0, BPF_REG_0, 0, 0⟩]

/-- union bpf_attr as populated by bpf_prog_load (the program-load arm).
Pointers are modelled by the pointed-to data (`insns`, `license`); `log_buf`
points at the global scratch buffer so only its capacity (`log_size`) and the
verbosity appear here.  `restZero` stands for every other byte of the union,
which `memset` clears and `bpf_prog_load` never touches. -/
structure BpfAttrRec where
  prog_type : Nat
  insns : List BpfInsn
  insn_cnt : Nat
  license : List Char
  log_size : Nat
  log_level : Nat
  kern_version : Nat
  restZero : Nat
deriving DecidableEq

/-- The record right after `memset(&attr, 0, sizeof(attr))`. -/
def zeroBpfAttr : BpfAttrRec := ⟨0, [], 0, [], 0, 0, 0, 0⟩

/-- The field assignments of bpf_prog_load (load-bpf.c lines 41-53), applied
to the zeroed record.  `kern_version` is set unconditionally to the build-time
LINUX_VERSION_CODE, passed in as a parameter. -/
def mkBpfAttr (linuxVersionCode ty : Nat) (insns : List BpfInsn) (insn_cnt : Nat)
    (license : List Char) : BpfAttrRec :=
  { zeroBpfAttr with
    prog_type := ty
    insns := insns
    insn_cnt := insn_cnt
    license := license
    log_size := LOG_BUF_SIZE
    log_level := 1
    kern_version := linuxVersionCode }

/-- struct perf_event_attr as populated by attachTracingEvent: the `= {}`
initializer zeroes it, then exactly four fields are assigned.  `restZero`
stands for every field the code leaves at zero. -/
structure PerfEventAttrRec where
  type : Nat
  config : Int
  sample_period : Nat
  wakeup_events : Nat
  restZero : Nat
deriving DecidableEq

/-- One run's kernel-side outcomes: the value each syscall of the single
pipeline run would return, plus the ambient process identity, the strerror
text and the verifier log text.  A Lean function of a `World` mirrors the
corresponding C function executed against that kernel behaviour. -/
structure World where
  linuxVersionCode : Nat
  progLoadRet : Int
  logText : List Char
  kfdRet : Int
  writeRet : Int
  writeErrno : Nat
  efdRet : Int
  readResult : Option (List Char)
  pfdRet : Int
  setBpfRet : Int
  enableRet : Int
  sigaddsetRet : Int
  sigprocmaskRet : Int
  sigwaitRet : Int
  deliveredSig : Int
  errStr : List Char
  pid : Nat

/-- Externally visible events of a run, in program order. -/
inductive Ev where
  | openFile (path : List Char) (ret : Int)
  | closeFd (fd : Int)
  | writeCtrl (line : List Char) (ret : Int)
  | perfOpen (attr : PerfEventAttrRec) (pid cpu group : Int) (flags : Nat) (ret : Int)
  | ioctlSetBpf (pfd progFd : Int)
  | ioctlEnable (pfd : Int)
  | bpfLoad (attr : BpfAttrRec) (ret : Int)
  | sigwaitCall
  | stderrLine (s : List Char)
deriving DecidableEq

/-- perror(msg): msg, ": ", strerror(errno), newline on stderr. -/
def perrorEv (msg err : List Char) : Ev :=
  Ev.stderrLine (msg ++ ": ".data ++ err ++ "\n".data)

/-- bpf_prog_load (load-bpf.c lines 38-59): builds the attr record and issues
the BPF_PROG_LOAD syscall, returning its result. -/
def bpf_prog_load (w : World) (ty : Nat) (insns : List BpfInsn) (insn_cnt : Nat)
    (license : List Char) : Int × List Ev :=
  (w.progLoadRet,
    [Ev.bpfLoad (mkBpfAttr w.linuxVersionCode ty insns insn_cnt license) w.progLoadRet])

/-- Result of attachTracingEvent: return value, the final value of the
`*pfd` out-parameter, and the event trace. -/
structure ATEResult where
  ret : Int
  pfd : Int
  evs : List Ev
deriving DecidableEq

/-- attachTracingEvent (load-bpf.c lines 93-137). -/
def attachTracingEvent (w : World) (progFd : Int) (event_path : List Char)
    (pfd0 : Int) : ATEResult :=
  let idPath := snprintfTake PATH_MAX (event_path ++ "/id".data)
  let efd := w.efdRet
  let evs0 := [Ev.openFile idPath efd]
  if efd < 0 then
    { ret := -1, pfd := pfd0,
      evs := evs0 ++ [Ev.stderrLine ("open(".data ++ idPath ++ "): ".data ++
        w.errStr ++ "\n".data)] }
  else
    match w.readResult with
    | none =>
      -- read(2) returned -1; `buf` still holds the id path, which the message echoes
      { ret := -1, pfd := pfd0,
        evs := evs0 ++ [Ev.stderrLine ("read(".data ++ idPath ++ "): ".data ++
          w.errStr ++ "\n".data), Ev.closeFd efd] }
    | some content =>
      if content.length = 0 ∨ PATH_MAX ≤ content.length then
        -- bytes <= 0 or bytes >= sizeof(buf); in the oversized case the
        -- message echoes the read data now sitting in `buf`
        { ret := -1, pfd := pfd0,
          evs := evs0 ++ [Ev.stderrLine ("read(".data ++
            (if content.length = 0 then idPath else content) ++ "): ".data ++
            w.errStr ++ "\n".data), Ev.closeFd efd] }
      else
        let attr : PerfEventAttrRec :=
          { type := PERF_TYPE_TRACEPOINT
            config := strtol0 content
            sample_period := 1
            wakeup_events := 1
            restZero := 0 }
        let pfd := w.pfdRet
        let evs1 := evs0 ++ [Ev.closeFd efd,
          Ev.perfOpen attr (-1) 0 (-1) PERF_FLAG_FD_CLOEXEC pfd]
        if pfd < 0 then
          { ret := -1, pfd := pfd,
            evs := evs1 ++ [Ev.stderrLine ("perf_event_open(".data ++ event_path ++
              "/id): ".data ++ w.errStr ++ "\n".data)] }
        else
          let evs2 := evs1 ++ [Ev.ioctlSetBpf pfd progFd]
          if w.setBpfRet < 0 then
            { ret := -1, pfd := pfd,
              evs := evs2 ++ [perrorEv "ioctl(PERF_EVENT_IOC_SET_BPF)".data w.errStr] }
          else
            let evs3 := evs2 ++ [Ev.ioctlEnable pfd]
            if w.enableRet < 0 then
              { ret := -1, pfd := pfd,
                evs := evs3 ++ [perrorEv "ioctl(PERF_EVENT_IOC_ENABLE)".data w.errStr] }
            else
              { ret := 0, pfd := pfd, evs := evs3 }

/-- The fixed literal event type of attachKprobe (load-bpf.c line 143);
the probe group written to the control file is this with an `s` appended. -/
def event_type : List Char := "kprobe".data

/-- ev_name (load-bpf.c line 159). -/
def ev_name : List Char := "p_do_sys_open".data

/-- fn_name, the target symbol (load-bpf.c line 162). -/
def fn_name : List Char := "do_sys_open".data

/-- BPF_PROBE_ENTRY (load-bpf.c line 169). -/
def BPF_PROBE_ENTRY : Nat := 0

/-- BPF_PROBE_RETURN (load-bpf.c line 170). -/
def BPF_PROBE_RETURN : Nat := 1

/-- Path of the kprobe control file (load-bpf.c line 151). -/
def kprobeEventsPath : List Char := "/sys/kernel/debug/tracing/kprobe_events".data

/-- `snprintf(event_alias, sizeof(event_alias), "%s_bcc_%d", ev_name, getpid())`
(load-bpf.c line 166), buffer of 128 bytes. -/
def eventAlias (pid : Nat) : List Char :=
  snprintfTake 128 (ev_name ++ "_bcc_".data ++ decRepr pid)

/-- `snprintf(buf, sizeof(buf), "%c:%ss/%s %s", ...)` (load-bpf.c lines
175-177), buffer of 256 bytes: kind character, colon, probe group
(event_type with an appended `s`), slash, alias, space, target symbol. -/
def controlLine (attach_type pid : Nat) : List Char :=
  snprintfTake 256 ((if attach_type = BPF_PROBE_ENTRY then 'p' else 'r') ::
    ':' :: (event_type ++ 's' :: '/' :: (eventAlias pid ++ ' ' :: fn_name)))

/-- `snprintf(buf, sizeof(buf), "/sys/kernel/debug/tracing/events/%ss/%s", ...)`
(load-bpf.c lines 196-197). -/
def eventDirPath (pid : Nat) : List Char :=
  snprintfTake 256 ("/sys/kernel/debug/tracing/events/".data ++ event_type ++
    's' :: '/' :: eventAlias pid)

/-- attachKprobe (load-bpf.c lines 142-207). -/
def attachKprobe (w : World) (progFd : Int) : Int × List Ev :=
  let kfd := w.kfdRet
  let evs0 := [Ev.openFile kprobeEventsPath kfd]
  if kfd < 0 then
    (-1, evs0 ++
      [perrorEv "Error opening /sys/kernel/debug/tracing/kprobe_events".data w.errStr])
  else
    let line := controlLine BPF_PROBE_ENTRY w.pid
    let evs1 := evs0 ++ [Ev.writeCtrl line w.writeRet]
    if w.writeRet < 0 then
      (-1, evs1 ++ [Ev.stderrLine
        (if w.writeErrno = ENOENT then
          "cannot attach kprobe, probe entry may not exist\n".data
        else "cannot attach kprobe, ".data ++ w.errStr ++ "\n".data),
        Ev.closeFd kfd])
    else
      let evs2 := evs1 ++ [Ev.closeFd kfd]
      let r := attachTracingEvent w progFd (eventDirPath w.pid) (-1)
      if r.ret < 0 then (-1, evs2 ++ r.evs) else (r.pfd, evs2 ++ r.evs)

/-- printf `%d` of a (possibly negative) int. -/
def intRepr (i : Int) : List Char :=
  if i < 0 then '-' :: decRepr i.natAbs else decRepr i.natAbs

/-- waitForSigInt (load-bpf.c lines 61-88). -/
def waitForSigInt (w : World) : Int × List Ev :=
  if w.sigaddsetRet < 0 then
    (1, [perrorEv "Error calling sigaddset()".data w.errStr])
  else if w.sigprocmaskRet < 0 then
    (1, [perrorEv "Error calling sigprocmask()".data w.errStr])
  else if w.sigwaitRet < 0 then
    (1, [Ev.sigwaitCall, perrorEv "Error calling sigwait()".data w.errStr])
  else if w.deliveredSig = SIGINT then
    (0, [Ev.sigwaitCall, Ev.stderrLine "SIGINT received!\n".data])
  else
    (0, [Ev.sigwaitCall, Ev.stderrLine ("Unexpected signal received: ".data ++
      intRepr w.deliveredSig ++ "\n".data)])

/-- The hint main prints once the pipeline is wired (load-bpf.c lines 326-329). -/
def runHint : List Char :=
  ("Run `sudo cat /sys/kernel/debug/tracing/trace_pipe` in another terminal" ++
   " to verify bpf_trace_printk() is working as expected.\n").data

/-- main (load-bpf.c lines 209-335): the exit status and the full event trace
of one run against kernel behaviour `w`. -/
def mainRun (w : World) : Int × List Ev :=
  let ld := bpf_prog_load w BPF_PROG_TYPE_KPROBE progInsns progInsns.length "GPL".data
  let progFd := ld.1
  if progFd = -1 then
    (1, ld.2 ++ [perrorEv "Error calling bpf_prog_load()".data w.errStr])
  else
    let ak := attachKprobe w progFd
    if ak.1 < 0 then
      (1, ld.2 ++ ak.2 ++ [perrorEv "Error calling attachKprobe()".data w.errStr,
        Ev.closeFd progFd])
    else
      let wres := waitForSigInt w
      (wres.1, ld.2 ++ ak.2 ++ [Ev.stderrLine runHint] ++ wres.2 ++
        [Ev.closeFd ak.1, Ev.closeFd progFd])

/-! ## Trace observations -/

/-- The handle returned by a resource-creating call, if the event is one. -/
def createdHandle : Ev → Option Int
  | .openFile _ r => some r
  | .perfOpen _ _ _ _ _ r => some r
  | .bpfLoad _ r => some r
  | _ => none

/-- Is the event a close (resource release)? -/
def isCloseEv : Ev → Bool
  | .closeFd _ => true
  | _ => false

/-- Number of resource creations that returned a valid (non-negative) handle. -/
def countValidCreates (tr : List Ev) : Nat :=
  ((tr.filterMap createdHandle).filter (fun h => decide (0 ≤ h))).length

/-- Number of resource releases. -/
def countCloses (tr : List Ev) : Nat := (tr.filter isCloseEv).length

/-- Everything the run writes to stderr, concatenated in order. -/
def stderrOut (tr : List Ev) : List Char :=
  (tr.filterMap (fun e => match e with | .stderrLine s => some s | _ => none)).flatten

/-- `needle` occurs contiguously inside `hay`. -/
def containsSeg (needle hay : List Char) : Bool :=
  (List.range (hay.length + 1)).any
    (fun i => decide ((hay.drop i).take needle.length = needle))

/-- The first perf_event_open call of a trace: its attribute record and the
pid, cpu, group-fd, flags arguments, and its result. -/
def perfOpenOf (tr : List Ev) : Option (PerfEventAttrRec × Int × Int × Int × Nat × Int) :=
  tr.findSome? (fun e => match e with
    | .perfOpen a p c g f r => some (a, p, c, g, f, r)
    | _ => none)

/-- The attr record submitted with BPF_PROG_LOAD. -/
def loadAttrOf (tr : List Ev) : Option BpfAttrRec :=
  tr.findSome? (fun e => match e with | .bpfLoad a _ => some a | _ => none)

/-- The subsequence of ioctl control operations, in order. -/
def ctlOps (tr : List Ev) : List Ev :=
  tr.filter (fun e => match e with
    | .ioctlSetBpf _ _ => true
    | .ioctlEnable _ => true
    | _ => false)

/-- Number of sigwait calls in a trace. -/
def countSigwaits (tr : List Ev) : Nat :=
  (tr.filter (fun e => match e with | .sigwaitCall => true | _ => false)).length

/-- Did the run attempt to open the kprobe control file (the first step of
probe registration)? -/
def ctrlOpenAttempted (tr : List Ev) : Bool :=
  tr.any (fun e => match e with
    | .openFile p _ => decide (p = kprobeEventsPath)
    | _ => false)

/-! ## Concrete runs used as witnesses and counterexamples -/

/-- A fully successful run: load yields fd 3, the control file is fd 4, the
id file is fd 5 with content "123", perf_event_open yields fd 6, both ioctl
calls succeed, and the delivered signal is SIGINT. -/
def wOk : World :=
  { linuxVersionCode := 266002
    progLoadRet := 3
    logText := []
    kfdRet := 4
    writeRet := 10
    writeErrno := 0
    efdRet := 5
    readResult := some "123".data
    pfdRet := 6
    setBpfRet := 0
    enableRet := 0
    sigaddsetRet := 0
    sigprocmaskRet := 0
    sigwaitRet := 0
    deliveredSig := 2
    errStr := "err".data
    pid := 7 }

/-- Same as `wOk` except that `ioctl(PERF_EVENT_IOC_SET_BPF)` fails. -/
def wIoctlFails : World := { wOk with setBpfRet := -1 }

/-- Same as `wOk` except that the load syscall fails with -1 while the
verifier leaves diagnostic text in the log buffer. -/
def wLoadFails : World :=
  { wOk with
    progLoadRet := -1
    logText := "BOOM: verifier rejected".data
    errStr := "Operation not permitted".data }

/-- Same as `wOk` except that the id file's content is not an integer. -/
def wBadContent : World := { wOk with readResult := some "abc".data }

/-- Same as `wOk` except that the delivered signal is SIGTERM (15). -/
def wTermSig : World := { wOk with deliveredSig := 15 }

/-- Same as `wOk` except that the load syscall returns -2. -/
def wLoadNeg2 : World := { wOk with progLoadRet := -2 }

/-! ## Claims -/

/-- Claim C1.  The claim states that every kernel resource whose creation
returned a valid handle is released exactly once — in particular that the
sampling-event descriptor is still released when a control (ioctl) operation
fails after its creation.  The code violates this: when
`ioctl(PERF_EVENT_IOC_SET_BPF)` fails, attachTracingEvent returns -1 without
closing `*pfd`, attachKprobe propagates -1 without closing it, and main only
closes the program descriptor.  In the run `wIoctlFails` four creations
return valid handles (program fd 3, control fd 4, attribute fd 5, sampling
fd 6) but only three closes happen, and fd 6 is never closed. -/
theorem c1_release_accounting_violated :
    countValidCreates (mainRun wIoctlFails).2 = 4 ∧
    countCloses (mainRun wIoctlFails).2 = 3 ∧
    Ev.closeFd 6 ∉ (mainRun wIoctlFails).2 ∧
    (mainRun wIoctlFails).1 = 1 := by decide

/-- Claim C2, counterexample.  On load failure main executes only
`perror("Error calling bpf_prog_load()")`: the verifier text sitting in
`bpf_log_buf` is never written.  In `wLoadFails` the buffer holds non-empty
diagnostic text, yet that text does not occur anywhere in the run's stderr
output, refuting "written verbatim to the process's error stream". -/
theorem c2_counterexample :
    (mainRun wLoadFails).1 = 1 ∧
    wLoadFails.logText ≠ [] ∧
    containsSeg wLoadFails.logText (stderrOut (mainRun wLoadFails).2) = false := by
  decide

/-- Claim C2, amended: whenever the load returns -1, the process writes only
the errno-derived perror line to the error stream — the verifier's diagnostic
text in the scratch buffer is not surfaced — and exits with status 1. -/
theorem c2_amended (w : World) (h : w.progLoadRet = -1) :
    (mainRun w).1 = 1 ∧
    stderrOut (mainRun w).2 =
      "Error calling bpf_prog_load()".data ++ ": ".data ++ w.errStr ++ "\n".data := by
  have hm : mainRun w = (1,
      [Ev.bpfLoad (mkBpfAttr w.linuxVersionCode BPF_PROG_TYPE_KPROBE progInsns
        progInsns.length "GPL".data) w.progLoadRet,
       perrorEv "Error calling bpf_prog_load()".data w.errStr]) := by
    rw [mainRun]
    simp [bpf_prog_load, h]
  rw [hm]
  exact ⟨rfl, by simp [stderrOut, perrorEv]⟩

/-- Witness for C2's amended theorem at the concrete run `wLoadFails`. -/
theorem c2_amended_witness :
    (mainRun wLoadFails).1 = 1 ∧
    stderrOut (mainRun wLoadFails).2 =
      "Error calling bpf_prog_load()".data ++ ": ".data ++ wLoadFails.errStr ++
        "\n".data :=
  c2_amended wLoadFails rfl

/-- Claim C3, counterexample.  The claim says the sampling-event request is
scoped to "no particular process and no particular CPU (global)".  In the
perf_event_open convention the any-CPU scope is the cpu argument -1; the code
passes `0` for cpu (load-bpf.c line 119), i.e. the event is bound to CPU 0
specifically.  At a concrete successful run the recorded call carries cpu
argument 0, not -1. -/
theorem c3_counterexample :
    perfOpenOf (attachTracingEvent wOk 3 "/sys/p".data (-1)).evs =
      some (⟨PERF_TYPE_TRACEPOINT, 123, 1, 1, 0⟩, -1, 0, -1,
        PERF_FLAG_FD_CLOEXEC, 6) ∧
    (0 : Int) ≠ -1 := by decide

theorem perfOpen_args (w : World) (progFd : Int) (path : List Char) (pfd0 : Int)
    (c : List Char) (h1 : 0 ≤ w.efdRet) (h2 : w.readResult = some c)
    (h3 : c.length ≠ 0) (h4 : c.length < PATH_MAX) :
    perfOpenOf (attachTracingEvent w progFd path pfd0).evs =
      some (⟨PERF_TYPE_TRACEPOINT, strtol0 c, 1, 1, 0⟩, -1, 0, -1,
        PERF_FLAG_FD_CLOEXEC, w.pfdRet) := by
  have he1 : ¬ w.efdRet < 0 := not_lt.mpr h1
  have hne : c ≠ [] := by intro hc; exact h3 (by simp [hc])
  have hlt : ¬ PATH_MAX ≤ c.length := not_le.mpr h4
  by_cases hp : w.pfdRet < 0 <;> by_cases hs : w.setBpfRet < 0 <;>
    by_cases he : w.enableRet < 0 <;>
    simp [attachTracingEvent, he1, h2, h3, hne, hlt, hp, hs, he, perfOpenOf,
      List.findSome?_cons]

/-- Claim C3, amended: the sampling-event request always has the tracepoint
category, the resolved identity as config, sample period 1, wakeup threshold
1, every other attribute field zero; the call is scoped to no particular
process (pid -1) but specifically to CPU 0 (not the any-CPU value -1), with
no group fd and the close-on-exec flag requested. -/
theorem c3_amended (w : World) (progFd : Int) (path : List Char) (pfd0 : Int)
    (c : List Char) (h1 : 0 ≤ w.efdRet) (h2 : w.readResult = some c)
    (h3 : c.length ≠ 0) (h4 : c.length < PATH_MAX) :
    perfOpenOf (attachTracingEvent w progFd path pfd0).evs =
      some (⟨PERF_TYPE_TRACEPOINT, strtol0 c, 1, 1, 0⟩, -1, 0, -1,
        PERF_FLAG_FD_CLOEXEC, w.pfdRet) :=
  perfOpen_args w progFd path pfd0 c h1 h2 h3 h4

/-- Witness for C3's amended theorem at the concrete run `wOk`. -/
theorem c3_amended_witness :
    perfOpenOf (attachTracingEvent wOk 3 "/sys/p".data (-1)).evs =
      some (⟨PERF_TYPE_TRACEPOINT, strtol0 "123".data, 1, 1, 0⟩, -1, 0, -1,
        PERF_FLAG_FD_CLOEXEC, wOk.pfdRet) :=
  c3_amended wOk 3 "/sys/p".data (-1) "123".data (by decide) rfl (by decide)
    (by decide)

/-- Claim C4, counterexample.  The claim says a delivered signal other than
SIGINT ends the wait "with a non-successful result".  waitForSigInt returns 0
in that branch too (load-bpf.c line 86): with SIGTERM (15) delivered the
result is 0. -/
theorem c4_counterexample :
    (waitForSigInt wTermSig).1 = 0 ∧ wTermSig.deliveredSig ≠ SIGINT := by decide

/-- Claim C4, amended: the wait performs a single sigwait and returns after
the first delivered signal; an unexpected signal is logged; but the result is
0 for ANY delivered signal — a non-zero result arises only when sigaddset,
sigprocmask or sigwait itself fails. -/
theorem c4_amended (w : World) (h1 : 0 ≤ w.sigaddsetRet)
    (h2 : 0 ≤ w.sigprocmaskRet) (h3 : 0 ≤ w.sigwaitRet) :
    (waitForSigInt w).1 = 0 ∧
    countSigwaits (waitForSigInt w).2 = 1 ∧
    (w.deliveredSig ≠ SIGINT →
      Ev.stderrLine ("Unexpected signal received: ".data ++
        intRepr w.deliveredSig ++ "\n".data) ∈ (waitForSigInt w).2) := by
  rw [waitForSigInt]
  rw [if_neg (not_lt.mpr h1), if_neg (not_lt.mpr h2), if_neg (not_lt.mpr h3)]
  by_cases hsig : w.deliveredSig = SIGINT
  · simp [hsig, countSigwaits]
  · simp [hsig, countSigwaits]

/-- Witness for C4's amended theorem at the concrete run `wTermSig`. -/
theorem c4_amended_witness :
    (waitForSigInt wTermSig).1 = 0 ∧
    countSigwaits (waitForSigInt wTermSig).2 = 1 ∧
    (wTermSig.deliveredSig ≠ SIGINT →
      Ev.stderrLine ("Unexpected signal received: ".data ++
        intRepr wTermSig.deliveredSig ++ "\n".data) ∈ (waitForSigInt wTermSig).2) :=
  c4_amended wTermSig (by decide) (by decide) (by decide)

theorem eventAlias_eq (pid : Nat) (h : pid < 2 ^ 31) :
    eventAlias pid = ev_name ++ "_bcc_".data ++ decRepr pid := by
  rw [eventAlias, snprintfTake]
  apply List.take_of_length_le
  have h10 : (decRepr pid).length ≤ 10 :=
    decRepr_length_le pid 10 (by norm_num) (lt_of_lt_of_le h (by norm_num))
  have hev : ev_name.length = 13 := rfl
  have hb : "_bcc_".data.length = 5 := rfl
  simp only [List.length_append, hev, hb]
  omega

theorem eventAlias_length_le (pid : Nat) (h : pid < 2 ^ 31) :
    (eventAlias pid).length ≤ 28 := by
  rw [eventAlias_eq pid h]
  have h10 : (decRepr pid).length ≤ 10 :=
    decRepr_length_le pid 10 (by norm_num) (lt_of_lt_of_le h (by norm_num))
  have hev : ev_name.length = 13 := rfl
  have hb : "_bcc_".data.length = 5 := rfl
  simp only [List.length_append, hev, hb]
  omega

theorem controlLine_eq (attach_type pid : Nat) (h : pid < 2 ^ 31) :
    controlLine attach_type pid =
      (if attach_type = BPF_PROBE_ENTRY then 'p' else 'r') ::
        ':' :: (event_type ++ 's' :: '/' :: (eventAlias pid ++ ' ' :: fn_name)) := by
  rw [controlLine, snprintfTake]
  apply List.take_of_length_le
  have ha := eventAlias_length_le pid h
  have het : event_type.length = 6 := rfl
  have hfn : fn_name.length = 11 := rfl
  simp only [List.length_cons, List.length_append, het, hfn]
  omega

theorem eventDirPath_eq (pid : Nat) (h : pid < 2 ^ 31) :
    eventDirPath pid = "/sys/kernel/debug/tracing/events/".data ++ event_type ++
      's' :: '/' :: eventAlias pid := by
  rw [eventDirPath, snprintfTake]
  apply List.take_of_length_le
  have ha := eventAlias_length_le pid h
  have hroot : "/sys/kernel/debug/tracing/events/".data.length = 33 := rfl
  have het : event_type.length = 6 := rfl
  simp only [List.length_cons, List.length_append, hroot, het]
  omega

/-- Claim C5.  Every control line written by attachKprobe follows the
positional grammar kind-char, colon, probe group, slash, alias, space,
target symbol, where the kind character is `p` for an entry probe and `r`
for a return probe and the probe group is the fixed literal `kprobes`; and
the attribute directory path returned on success is built purely from the
events root, that probe group and the alias. -/
theorem c5_control_line_grammar (pid : Nat) (h : pid < 2 ^ 31) :
    controlLine BPF_PROBE_ENTRY pid =
      'p' :: ':' :: ("kprobes".data ++ '/' :: (eventAlias pid ++ ' ' :: fn_name)) ∧
    controlLine BPF_PROBE_RETURN pid =
      'r' :: ':' :: ("kprobes".data ++ '/' :: (eventAlias pid ++ ' ' :: fn_name)) ∧
    eventDirPath pid = "/sys/kernel/debug/tracing/events/".data ++
      ("kprobes".data ++ '/' :: eventAlias pid) := by
  refine ⟨?_, ?_, ?_⟩
  · rw [controlLine_eq BPF_PROBE_ENTRY pid h]; rfl
  · rw [controlLine_eq BPF_PROBE_RETURN pid h]; rfl
  · rw [eventDirPath_eq pid h]; rfl

/-- Witness for C5 at the concrete process identity 1234. -/
theorem c5_control_line_grammar_witness :
    controlLine BPF_PROBE_ENTRY 1234 =
      'p' :: ':' :: ("kprobes".data ++ '/' :: (eventAlias 1234 ++ ' ' :: fn_name)) ∧
    controlLine BPF_PROBE_RETURN 1234 =
      'r' :: ':' :: ("kprobes".data ++ '/' :: (eventAlias 1234 ++ ' ' :: fn_name)) ∧
    eventDirPath 1234 = "/sys/kernel/debug/tracing/events/".data ++
      ("kprobes".data ++ '/' :: eventAlias 1234) :=
  c5_control_line_grammar 1234 (by norm_num)

/-- Claim C6.  bpf_prog_load builds its request record from the fully zeroed
record (memset), so every field it does not assign stays zero, and the
kernel-version stamp is set to the build-time LINUX_VERSION_CODE before the
request is submitted — unconditionally, hence in particular when the program
kind is BPF_PROG_TYPE_KPROBE, which is the kind main submits. -/
theorem c6_attr_zero_init_and_version (w : World) (ty : Nat)
    (insns : List BpfInsn) (cnt : Nat) (lic : List Char) :
    (mkBpfAttr w.linuxVersionCode ty insns cnt lic).restZero = zeroBpfAttr.restZero ∧
    (mkBpfAttr w.linuxVersionCode ty insns cnt lic).kern_version = w.linuxVersionCode ∧
    (mkBpfAttr w.linuxVersionCode ty insns cnt lic).prog_type = ty ∧
    (mkBpfAttr w.linuxVersionCode ty insns cnt lic).insn_cnt = cnt ∧
    (mkBpfAttr w.linuxVersionCode ty insns cnt lic).license = lic ∧
    loadAttrOf (mainRun w).2 =
      some (mkBpfAttr w.linuxVersionCode BPF_PROG_TYPE_KPROBE progInsns
        progInsns.length "GPL".data) := by
  refine ⟨rfl, rfl, rfl, rfl, rfl, ?_⟩
  rw [mainRun]
  simp only [bpf_prog_load]
  by_cases h1 : w.progLoadRet = -1
  · simp [h1, loadAttrOf, List.findSome?_cons]
  · by_cases h2 : (attachKprobe w w.progLoadRet).1 < 0 <;>
      simp [h1, h2, loadAttrOf, List.findSome?_cons]

/-- Claim C7.  Once the sampling-event descriptor is created, exactly two
control operations are issued on it, in order: bind the program descriptor
(PERF_EVENT_IOC_SET_BPF), then enable (PERF_EVENT_IOC_ENABLE); if either
fails the call returns -1 instead of success. -/
theorem c7_bind_then_enable (w : World) (progFd : Int) (path : List Char)
    (pfd0 : Int) (c : List Char) (h1 : 0 ≤ w.efdRet) (h2 : w.readResult = some c)
    (h3 : c.length ≠ 0) (h4 : c.length < PATH_MAX) (h5 : 0 ≤ w.pfdRet) :
    (0 ≤ w.setBpfRet → 0 ≤ w.enableRet →
      (attachTracingEvent w progFd path pfd0).ret = 0 ∧
      ctlOps (attachTracingEvent w progFd path pfd0).evs =
        [Ev.ioctlSetBpf w.pfdRet progFd, Ev.ioctlEnable w.pfdRet]) ∧
    (w.setBpfRet < 0 →
      (attachTracingEvent w progFd path pfd0).ret = -1 ∧
      ctlOps (attachTracingEvent w progFd path pfd0).evs =
        [Ev.ioctlSetBpf w.pfdRet progFd]) ∧
    (0 ≤ w.setBpfRet → w.enableRet < 0 →
      (attachTracingEvent w progFd path pfd0).ret = -1 ∧
      ctlOps (attachTracingEvent w progFd path pfd0).evs =
        [Ev.ioctlSetBpf w.pfdRet progFd, Ev.ioctlEnable w.pfdRet]) := by
  have he1 : ¬ w.efdRet < 0 := not_lt.mpr h1
  have hne : c ≠ [] := fun hc => h3 (by simp [hc])
  have hlt : ¬ PATH_MAX ≤ c.length := not_le.mpr h4
  have hp : ¬ w.pfdRet < 0 := not_lt.mpr h5
  refine ⟨fun hs he => ?_, fun hs => ?_, fun hs he => ?_⟩
  · have hs' : ¬ w.setBpfRet < 0 := not_lt.mpr hs
    have he' : ¬ w.enableRet < 0 := not_lt.mpr he
    constructor <;>
      simp [attachTracingEvent, he1, h2, hne, hlt, hp, hs', he', ctlOps, perrorEv]
  · constructor <;>
      simp [attachTracingEvent, he1, h2, hne, hlt, hp, hs, ctlOps, perrorEv]
  · have hs' : ¬ w.setBpfRet < 0 := not_lt.mpr hs
    constructor <;>
      simp [attachTracingEvent, he1, h2, hne, hlt, hp, hs', he, ctlOps, perrorEv]

/-- Witness for C7 at the concrete fully successful run `wOk`. -/
theorem c7_bind_then_enable_witness :
    (attachTracingEvent wOk 3 "/sys/p".data (-1)).ret = 0 ∧
    ctlOps (attachTracingEvent wOk 3 "/sys/p".data (-1)).evs =
      [Ev.ioctlSetBpf wOk.pfdRet 3, Ev.ioctlEnable wOk.pfdRet] :=
  (c7_bind_then_enable wOk 3 "/sys/p".data (-1) "123".data (by decide) rfl
    (by decide) (by decide) (by decide)).1 (by decide) (by decide)

/-- Claim C8, counterexample.  The claim says resolution fails when "the
content does not parse as an integer".  The code calls
`strtol(buf, NULL, 0)` with a NULL end pointer and never checks whether any
digits were consumed: with content "abc" (no leading digit, so it does not
parse as an integer) strtol yields 0, no failure occurs, and the call
proceeds to a successful perf_event_open with config 0. -/
theorem c8_counterexample :
    (attachTracingEvent wBadContent 3 "/sys/p".data (-1)).ret = 0 ∧
    digitInBase 10 'a' = none ∧
    strtol0 "abc".data = 0 ∧
    perfOpenOf (attachTracingEvent wBadContent 3 "/sys/p".data (-1)).evs =
      some (⟨PERF_TYPE_TRACEPOINT, 0, 1, 1, 0⟩, -1, 0, -1,
        PERF_FLAG_FD_CLOEXEC, 6) := by decide

/-- Claim C8, amended: resolution aborts (no sampling-event creation is even
attempted) exactly when the attribute open fails, the read fails, or the read
returns nothing or data at/beyond the buffer capacity; content that does not
parse as an integer is NOT rejected — the perf_event_open is issued with
config `strtol0 content` (0 for non-numeric text); and the parse has flexible
base, reading back both decimal and 0x-prefixed hexadecimal renderings. -/
theorem c8_amended (w : World) (progFd : Int) (path : List Char) (pfd0 : Int) :
    (perfOpenOf (attachTracingEvent w progFd path pfd0).evs = none ↔
      (w.efdRet < 0 ∨ w.readResult = none ∨
        ∃ c, w.readResult = some c ∧ (c.length = 0 ∨ PATH_MAX ≤ c.length))) ∧
    (∀ c, w.readResult = some c → 0 ≤ w.efdRet → c.length ≠ 0 →
      c.length < PATH_MAX →
      perfOpenOf (attachTracingEvent w progFd path pfd0).evs =
        some (⟨PERF_TYPE_TRACEPOINT, strtol0 c, 1, 1, 0⟩, -1, 0, -1,
          PERF_FLAG_FD_CLOEXEC, w.pfdRet)) ∧
    (∀ n : Nat, n < 2 ^ 63 →
      strtol0 (decRepr n) = (n : Int) ∧
      strtol0 ('0' :: 'x' :: hexRepr n) = (n : Int)) := by
  refine ⟨?_, fun c hc h1 h3 h4 => perfOpen_args w progFd path pfd0 c h1 hc h3 h4,
    fun n hn => ⟨strtol0_decRepr n hn, strtol0_hexRepr n hn⟩⟩
  constructor
  · intro hnone
    by_cases hefd : w.efdRet < 0
    · exact Or.inl hefd
    · match hr : w.readResult with
      | none => exact Or.inr (Or.inl rfl)
      | some c =>
        refine Or.inr (Or.inr ⟨c, rfl, ?_⟩)
        by_contra hl
        push_neg at hl
        rw [perfOpen_args w progFd path pfd0 c (not_lt.mp hefd) hr hl.1
          (hl.2)] at hnone
        exact Option.noConfusion hnone
  · intro hdisj
    rcases hdisj with hefd | hread | ⟨c, hc, hlen⟩
    · simp [attachTracingEvent, hefd, perfOpenOf, List.findSome?_cons]
    · by_cases hefd : w.efdRet < 0 <;>
        simp [attachTracingEvent, hefd, hread, perfOpenOf, List.findSome?_cons]
    · by_cases hefd : w.efdRet < 0
      · simp [attachTracingEvent, hefd, perfOpenOf, List.findSome?_cons]
      · rcases hlen with h0 | hge
        · have hcn : c = [] := List.length_eq_zero.mp h0
          simp [attachTracingEvent, hefd, hc, hcn, perfOpenOf, List.findSome?_cons]
        · simp [attachTracingEvent, hefd, hc, hge, perfOpenOf, List.findSome?_cons]

/-- Witness for C8's amended theorem: the flexible-base conjunct applied at
26 (decimal "26", hexadecimal "0x1a"). -/
theorem c8_amended_witness :
    strtol0 (decRepr 26) = ((26 : Nat) : Int) ∧
    strtol0 ('0' :: 'x' :: hexRepr 26) = ((26 : Nat) : Int) :=
  (c8_amended wBadContent 3 "/sys/p".data (-1)).2.2 26 (by norm_num)

/-- Claim C9.  The alias is derived deterministically from the fixed prefix,
the target symbol and the invoking process identity, so two registrations
from distinct process identities produce distinct aliases and hence distinct
probe paths. -/
theorem c9_alias_distinct_across_pids (p1 p2 : Nat) (h1 : p1 < 2 ^ 31)
    (h2 : p2 < 2 ^ 31) (hne : p1 ≠ p2) :
    eventAlias p1 ≠ eventAlias p2 ∧ eventDirPath p1 ≠ eventDirPath p2 := by
  have hd : decRepr p1 ≠ decRepr p2 := by
    intro hEq
    exact hne (decRepr_inj p1 p2 (lt_of_lt_of_le h1 (by norm_num))
      (lt_of_lt_of_le h2 (by norm_num)) hEq)
  have halias : eventAlias p1 ≠ eventAlias p2 := by
    rw [eventAlias_eq p1 h1, eventAlias_eq p2 h2]
    intro hEq
    exact hd (List.append_cancel_left hEq)
  refine ⟨halias, ?_⟩
  rw [eventDirPath_eq p1 h1, eventDirPath_eq p2 h2]
  intro hEq
  apply halias
  have h' := List.append_cancel_left hEq
  simpa using h'

/-- Witness for C9 at the concrete process identities 1 and 2. -/
theorem c9_alias_distinct_witness :
    eventAlias 1 ≠ eventAlias 2 ∧ eventDirPath 1 ≠ eventDirPath 2 :=
  c9_alias_distinct_across_pids 1 2 (by norm_num) (by norm_num) (by norm_num)

/-- Claim C10.  main treats the load as failed exactly when the returned
descriptor equals -1 (load-bpf.c line 314): with -1 it prints the perror
line and exits 1 without ever touching the probe control file; with any
other value — including other negative values such as -2 — it proceeds to
probe registration (the control-file open is attempted). -/
theorem c10_minus_one_only (w : World) :
    (w.progLoadRet = -1 →
      (mainRun w).1 = 1 ∧ ctrlOpenAttempted (mainRun w).2 = false) ∧
    (w.progLoadRet ≠ -1 → ctrlOpenAttempted (mainRun w).2 = true) := by
  constructor
  · intro h
    constructor
    · simp [mainRun, bpf_prog_load, h]
    · simp [mainRun, bpf_prog_load, h, ctrlOpenAttempted, perrorEv]
  · intro h
    have hmem : Ev.openFile kprobeEventsPath w.kfdRet ∈
        (attachKprobe w w.progLoadRet).2 := by
      by_cases hk : w.kfdRet < 0
      · simp [attachKprobe, hk]
      · by_cases hw : w.writeRet < 0
        · simp [attachKprobe, hk, hw]
        · by_cases hr : (attachTracingEvent w w.progLoadRet
              (eventDirPath w.pid) (-1)).ret < 0 <;>
            simp [attachKprobe, hk, hw, hr]
    rw [ctrlOpenAttempted, List.any_eq_true]
    refine ⟨Ev.openFile kprobeEventsPath w.kfdRet, ?_, by simp⟩
    by_cases ha : (attachKprobe w w.progLoadRet).1 < 0 <;>
      simp [mainRun, bpf_prog_load, h, ha, List.mem_append, hmem]

/-- Witness for C10: with load returning -2 (negative but not -1) the
pipeline proceeds to probe registration. -/
theorem c10_minus_one_only_witness :
    ctrlOpenAttempted (mainRun wLoadNeg2).2 = true :=
  (c10_minus_one_only wLoadNeg2).2 (by decide)
